import Mathlib

/-!
Verification of the billing orchestration core (`BillingIntegration`) of the
ev-server repository: a shallow embedding in Lean 4 of the data model and the
control logic of user synchronization, periodic invoice settlement, eligibility
checks, invoice notification and test-data cleanup, together with theorems
settling the specified properties.

External collaborators (the billing provider, the ledger store, the
notification framework) are modelled as explicit behaviour parameters, per
their capability contracts; all orchestration logic is translated directly
from the source.
-/

namespace EvBilling

/-- Invoice statuses (`BillingInvoiceStatus`).  Modelled from the spec: the
status enum itself lives in `types/Billing.ts`, outside the provided sources;
the spec lists `DRAFT`, `OPEN`, `PAID` and other terminal/non-terminal states. -/
inductive BillingInvoiceStatus where
  | DRAFT
  | OPEN
  | PAID
  | VOID
  | DELETED
  | UNCOLLECTIBLE
deriving DecidableEq, Repr

/-- Transaction-level billing statuses (`BillingStatus`).  Modelled from the
spec: the enum lives in `types/Billing.ts`; the purge resets sessions to
`UNBILLED`. -/
inductive BillingStatus where
  | UNBILLED
  | BILLED
  | PENDING
  | FAILED
deriving DecidableEq, Repr

/-- One session reference carried by an invoice (`BillingSessionData`): it
references one transaction by ID. -/
structure BillingSession where
  transactionID : Nat
deriving DecidableEq, Repr

/-- An invoice record (`BillingInvoice`), restricted to the fields the
orchestration logic reads.  `createdOnDay` abstracts the `createdOn` date at
calendar-day granularity (only same-day comparison is performed on it);
`userLocale` stands for `invoice.user.locale`. -/
structure BillingInvoice where
  id : Nat
  status : BillingInvoiceStatus
  createdOnDay : Int
  liveMode : Bool
  amount : Int
  currency : String
  number : String
  payInvoiceUrl : String
  userLocale : String
  sessions : Option (List BillingSession)
deriving DecidableEq, Repr

/-- JavaScript truthiness of an optional string: `undefined`/`null` and the
empty string are falsy. -/
def truthyStr : Option String → Bool
  | none => false
  | some s => s ≠ ""

/-- The `stop` sub-record of a transaction's billing data
(`BillingDataTransactionStop`). -/
structure BillingDataTransactionStop where
  status : BillingStatus
  invoiceID : Option String
  invoiceNumber : Option String
  invoiceStatus : Option BillingInvoiceStatus
deriving DecidableEq, Repr

/-- A transaction's billing data sub-record (`{ withBillingActive, lastUpdate,
stop }`).  Dates (`lastUpdate`) are modelled as integer timestamps. -/
structure TransactionBillingData where
  withBillingActive : Bool
  lastUpdate : Int
  stop : Option BillingDataTransactionStop
deriving DecidableEq, Repr

/-- The user's billing data (`user.billingData`): the provider link. -/
structure UserBillingData where
  customerID : Option String
  liveMode : Bool
deriving DecidableEq, Repr

/-- A local user/account (`User`), restricted to the fields read here. -/
structure UserB where
  id : String
  freeAccess : Bool
  billingData : Option UserBillingData
deriving DecidableEq, Repr

/-- The `stop` record of a transaction (`TransactionStop`): stop timestamp in
milliseconds and total metered consumption in Wh. -/
structure TransactionStop where
  timestampMs : Int
  totalConsumptionWh : Int
deriving DecidableEq, Repr

/-- A usage transaction (`Transaction`), restricted to the fields read by the
billing integration.  Timestamps are milliseconds since the epoch. -/
structure Transaction where
  id : Nat
  userID : Option String
  user : Option UserB
  timestampMs : Int
  lastConsumptionTimestampMs : Int
  stop : Option TransactionStop
  billingData : Option TransactionBillingData
deriving DecidableEq, Repr

/-- A charging station (`ChargingStation`); only its presence matters here. -/
structure ChargingStationB where
  id : String
deriving DecidableEq, Repr

/-- A site area (`SiteArea`); the integration reads only `accessControl`. -/
structure SiteAreaB where
  accessControl : Bool
deriving DecidableEq, Repr

/-- The billing settings read by the integration
(`settings.billing.isTransactionBillingActivated`,
`settings.billing.periodicBillingAllowed`). -/
structure BillingSettingsB where
  isTransactionBillingActivated : Bool
  periodicBillingAllowed : Bool
deriving DecidableEq, Repr

/-- Modelled from the spec: `Constants.BATCH_PAGE_SIZE`, the configured batch
page size (defined in `utils/Constants.ts`, outside the provided sources).
The claims depend only on the query using this constant, not on its value. -/
def BATCH_PAGE_SIZE : Nat := 100

/-! ## Calendar dates (the `moment` operations used by the query builder)

`preparePeriodicBillingQueryParameters` uses `moment()` with `startOf('day')`,
`endOf('day')` and `.date(0)` / `.date(1)`.  A date is year/month/day plus
milliseconds within the day. -/

/-- A calendar date with time-of-day, at millisecond granularity. -/
structure MDate where
  year : Int
  month : Int
  day : Int
  msOfDay : Int
deriving DecidableEq, Repr

/-- Leap-year test (Gregorian). -/
def isLeapYear (y : Int) : Bool :=
  y % 4 == 0 && (y % 100 != 0 || y % 400 == 0)

/-- Number of days in a month (month in 1..12). -/
def daysInMonth (y m : Int) : Int :=
  if m == 2 then (if isLeapYear y then 29 else 28)
  else if m == 4 || m == 6 || m == 9 || m == 11 then 30
  else 31

/-- `moment(d).startOf('day')`: midnight of the same day. -/
def startOfDay (d : MDate) : MDate :=
  { d with msOfDay := 0 }

/-- `moment(d).endOf('day')`: 23:59:59.999 of the same day. -/
def endOfDay (d : MDate) : MDate :=
  { d with msOfDay := 86399999 }

/-- `moment(d).date(n)`: set the day of month.  `date(0)` rolls back to the
last day of the previous month (the only out-of-range argument the source
uses). -/
def setDate (d : MDate) (n : Int) : MDate :=
  if n ≥ 1 then { d with day := n }
  else
    let y := if d.month == 1 then d.year - 1 else d.year
    let m := if d.month == 1 then (12 : Int) else d.month - 1
    { d with year := y, month := m, day := daysInMonth y m }

/-- The query parameters computed per settlement run
(`preparePeriodicBillingQueryParameters`'s result): date window, status
filter, page size, and the sort direction on `createdOn` (`1` = ascending). -/
structure PeriodicQuery where
  startDateTime : MDate
  endDateTime : MDate
  invoiceStatus : List BillingInvoiceStatus
  limit : Nat
  sortCreatedOn : Int
deriving DecidableEq, Repr

/-- `preparePeriodicBillingQueryParameters(forceOperation)`: forced mode uses
today's day window with page size 1; normal mode uses the previous calendar
month with the configured batch size; the status filter depends on
`periodicBillingAllowed`; sort is ascending on `createdOn`. -/
def preparePeriodicBillingQueryParameters (periodicBillingAllowed : Bool)
    (forceOperation : Bool) (now : MDate) : PeriodicQuery :=
  let limit : Nat := if forceOperation then 1 else BATCH_PAGE_SIZE
  let startDateTime : MDate :=
    if forceOperation then startOfDay now
    else startOfDay (setDate (setDate now 0) 1)
  let endDateTime : MDate :=
    if forceOperation then endOfDay now
    else startOfDay (setDate now 1)
  let invoiceStatus : List BillingInvoiceStatus :=
    if periodicBillingAllowed then
      [BillingInvoiceStatus.DRAFT, BillingInvoiceStatus.OPEN]
    else
      [BillingInvoiceStatus.OPEN]
  { startDateTime := startDateTime, endDateTime := endDateTime,
    invoiceStatus := invoiceStatus, limit := limit, sortCreatedOn := 1 }

/-! ## Eligibility checks -/

/-- `checkStartTransaction(transaction, chargingStation, siteArea)`.
`activated` is `settings.billing.isTransactionBillingActivated`; `orgActive`
is `Utils.isTenantComponentActive(tenant, ORGANIZATION)`.  Thrown
`BackendError`s are modelled as `Except.error` carrying the message. -/
def checkStartTransaction (activated orgActive : Bool) (t : Transaction)
    (cs : Option ChargingStationB) (sa : Option SiteAreaB) :
    Except String Bool :=
  if !activated then .ok false
  else if !(truthyStr t.userID) || t.user.isNone then
    .error "User ID is not provided"
  else if (t.user.map (fun u => u.freeAccess)).getD false then .ok false
  else if cs.isNone then
    .error "The Charging Station is mandatory to start a Transaction"
  else if orgActive && sa.isNone then
    .error "The Site Area is mandatory to start a Transaction"
  else if orgActive && !((sa.map (fun a => a.accessControl)).getD false) then
    .ok false
  else if !(truthyStr ((t.user.bind (fun u => u.billingData)).bind
      (fun bd => bd.customerID))) then
    .error "User has no Billing data or no Customer ID"
  else .ok true

/-- `computeTimeSpentInSeconds(transaction)`: the elapsed time in seconds,
from start to stop timestamp (or to the last consumption when no stop). -/
def computeTimeSpentInSeconds (t : Transaction) : ℚ :=
  match t.stop with
  | none => ((t.lastConsumptionTimestampMs - t.timestampMs : Int) : ℚ) / 1000
  | some st => ((st.timestampMs - t.timestampMs : Int) : ℚ) / 1000

/-- `checkBillingDataThreshold(transaction)`.  `isDevEnv` is
`Utils.isDevelopmentEnv()`.  In a non-development environment the function
returns `false` when the time spent is under 60 seconds or the consumption is
under 1000 Wh; reading `transaction.stop.totalConsumptionWh` with no `stop`
record raises a TypeError, modelled as `none` (JavaScript `||`
short-circuits, so the read happens only when the duration test fails). -/
def checkBillingDataThreshold (isDevEnv : Bool) (t : Transaction) :
    Option Bool :=
  if !isDevEnv then
    if computeTimeSpentInSeconds t < 60 then some false
    else
      match t.stop with
      | none => none
      | some st => if st.totalConsumptionWh < 1000 then some false
                   else some true
  else some true

/-! ## Account synchronization (`_synchronizeUser`, `synchronizeUser`,
`forceSynchronizeUser`)

The abstract provider operations (`isUserSynchronized`, `getUser`,
`createUser`, `updateUser`, `repairUser`) are external capabilities; each is
modelled by its outcome for the account at hand: a thrown error or a
(nullable) resolved `BillingUser`. -/

/-- The provider-side record of a user (`BillingUser`), restricted to the
provider link the synchronizer compares. -/
structure BillingUser where
  customerID : String
deriving DecidableEq, Repr

/-- A provider/storage error.  `notFound` is the provider's explicit
"no matching record" outcome (e.g. a `resource_missing` error); `other`
covers every other failure. -/
inductive ProvErr where
  | notFound
  | other (code : Nat)
deriving DecidableEq, Repr

/-- The outcomes of the abstract provider operations for one account: each
either throws (`Except.error`) or resolves, possibly with `null`. -/
structure SyncProvider where
  isUserSynchronized : Except ProvErr Bool
  getUser : Except ProvErr (Option BillingUser)
  createUser : Except ProvErr (Option BillingUser)
  updateUser : Except ProvErr (Option BillingUser)
  repairUser : Except ProvErr (Option BillingUser)
deriving Repr

/-- A provider operation invoked during synchronization, in invocation
order. -/
inductive PCall where
  | isSynchronized
  | get
  | create
  | update
  | repair
deriving DecidableEq, Repr

/-- `_synchronizeUser(user, forceMode)`: the result (the thrown error or the
returned `BillingUser`) together with the ordered trace of provider
operations invoked.  Normal mode checks `isUserSynchronized` and creates or
updates; force mode tries `getUser` and falls through to create (empty
record) or update (non-empty record), with any error in that `try` block
routed to `repairUser`. -/
def _synchronizeUser (p : SyncProvider) (forceMode : Bool) :
    Except ProvErr (Option BillingUser) × List PCall :=
  if !forceMode then
    match p.isUserSynchronized with
    | .error e => (.error e, [.isSynchronized])
    | .ok exists0 =>
      if !exists0 then
        (p.createUser, [.isSynchronized, .create])
      else
        (p.updateUser, [.isSynchronized, .update])
  else
    match p.getUser with
    | .error _ => (p.repairUser, [.get, .repair])
    | .ok none =>
      match p.createUser with
      | .error _ => (p.repairUser, [.get, .create, .repair])
      | .ok u => (.ok u, [.get, .create])
    | .ok (some _) =>
      match p.updateUser with
      | .error _ => (p.repairUser, [.get, .update, .repair])
      | .ok u => (.ok u, [.get, .update])

/-- `synchronizeUser(user)`: wraps `_synchronizeUser` in a `try`/`catch`;
on error it logs and returns the `billingUser` local, still `null`. -/
def synchronizeUser (p : SyncProvider) : Except ProvErr (Option BillingUser) :=
  match (_synchronizeUser p false).1 with
  | .ok u => .ok u
  | .error _ => .ok none

/-- `forceSynchronizeUser(user)`: wraps `_synchronizeUser(user, true)` in a
`try`/`catch`; on error it logs and returns the `billingUser` local, still
`null`. -/
def forceSynchronizeUser (p : SyncProvider) :
    Except ProvErr (Option BillingUser) :=
  match (_synchronizeUser p true).1 with
  | .ok u => .ok u
  | .error _ => .ok none

/-! ## Invoice notification (`sendInvoiceNotification`) -/

/-- `String.prototype.toUpperCase()` restricted to the ASCII range (currency
codes are ASCII). -/
def toUpperString (s : String) : String :=
  String.mk (s.data.map fun c =>
    if 'a' ≤ c ∧ c ≤ 'z' then Char.ofNat (c.toNat - 32) else c)

/-- The tenant record fetched for URL building; only `subdomain` is read. -/
structure TenantB where
  subdomain : String
deriving DecidableEq, Repr

/-- The behaviour of the external collaborators of the notification path:
the tenant lookup (`TenantStorage.getTenant`) and the locale/currency
formatter (`Intl.NumberFormat(...).format`), taking locale, upper-cased
currency code and the numeric value; either may throw. -/
structure NotifyEnv where
  getTenant : Except Unit TenantB
  format : String → String → ℚ → Except Unit String
deriving Inhabited

/-- The payload handed to
`NotificationHandler.sendBillingNewInvoiceNotification`, restricted to the
fields the source computes; `amountValue` and `currency` record the numeric
value and currency code passed to the formatter. -/
structure NotifyDispatch where
  subdomain : String
  payInvoiceUrl : String
  amountValue : ℚ
  currency : String
  formattedAmount : String
  invoiceNumber : String
  invoiceStatus : BillingInvoiceStatus
deriving DecidableEq, Repr

/-- `sendInvoiceNotification(billingInvoice)`: first component is the
returned value (`none` models the `undefined` produced when no `return`
statement executes), second the dispatched notification, if any.  Only OPEN
and PAID invoices enter the `try` body; any error there is caught and turned
into `return false`. -/
def sendInvoiceNotification (env : NotifyEnv) (inv : BillingInvoice) :
    Option Bool × Option NotifyDispatch :=
  if inv.status = .OPEN ∨ inv.status = .PAID then
    match env.getTenant with
    | .error _ => (some false, none)
    | .ok tenant =>
      let amountQ : ℚ := (inv.amount : ℚ) / 100
      let cur := toUpperString inv.currency
      match env.format inv.userLocale cur amountQ with
      | .error _ => (some false, none)
      | .ok s =>
        (some true, some
          { subdomain := tenant.subdomain,
            payInvoiceUrl :=
              if inv.status = .OPEN then inv.payInvoiceUrl else "",
            amountValue := amountQ, currency := cur, formattedAmount := s,
            invoiceNumber := inv.number, invoiceStatus := inv.status })
  else (none, none)

/-! ## Periodic settlement (`chargeInvoices`)

The store's page query (`BillingStorage.getInvoices`) is modelled per its
capability contract `Store.queryInvoices(filter, sort, limit, skip) -> page`:
a function from the current `skip` to the returned page (filter, sort and
limit are fixed for the run).  The provider's settlement operation
(`chargeInvoice`) may throw.  The outer `while (true)` loop is embedded with
explicit fuel. -/

/-- `isInvoiceOutOfPeriodicOperationScope(invoice)`: DRAFT invoices are in
scope only when periodic billing of drafts is allowed; OPEN invoices are in
scope; everything else is out of scope. -/
def isInvoiceOutOfPeriodicOperationScope (periodicBillingAllowed : Bool)
    (inv : BillingInvoice) : Bool :=
  if inv.status = .DRAFT && periodicBillingAllowed then false
  else if inv.status = .OPEN then false
  else true

/-- The external behaviour a `chargeInvoices` run interacts with. -/
structure ChargeEnv where
  checkConnection : Except Unit Unit
  store : Int → List BillingInvoice
  charge : BillingInvoice → Except Unit BillingInvoice
  todayDay : Int
  periodicBillingAllowed : Bool
  now : MDate

/-- What happened to one invoice of a page: skipped as out of scope, skipped
as too fresh (same-day), settled successfully, or failed. -/
inductive ChargeEvent where
  | scopeSkip (inv : BillingInvoice)
  | freshSkip (inv : BillingInvoice)
  | chargedOk (inv newInv : BillingInvoice)
  | chargedErr (inv : BillingInvoice)
deriving DecidableEq, Repr

/-- The loop state of a `chargeInvoices` run: the running `skip`, the
aggregate counters, the number of (non-empty) pages fetched so far and the
per-invoice event trace. -/
structure ChargeState where
  skip : Int
  inSuccess : Nat
  inError : Nat
  pages : Nat
  events : List ChargeEvent
deriving DecidableEq, Repr

/-- The body of the inner `for` loop of `chargeInvoices`, processing one
invoice: scope skip, same-day skip (counted as success), or settlement with
the skip compensation when the settled invoice left the periodic scope; a
thrown per-item error is caught and counted. -/
def processInvoice (env : ChargeEnv) (forceOperation : Bool)
    (st : ChargeState) (inv : BillingInvoice) : ChargeState :=
  if isInvoiceOutOfPeriodicOperationScope env.periodicBillingAllowed inv then
    { st with events := st.events ++ [.scopeSkip inv] }
  else if !forceOperation && inv.createdOnDay == env.todayDay then
    { st with inSuccess := st.inSuccess + 1,
              events := st.events ++ [.freshSkip inv] }
  else
    match env.charge inv with
    | .ok newInv =>
      { st with
        skip :=
          if isInvoiceOutOfPeriodicOperationScope env.periodicBillingAllowed
              newInv then
            st.skip - 1
          else st.skip,
        inSuccess := st.inSuccess + 1,
        events := st.events ++ [.chargedOk inv newInv] }
    | .error _ =>
      { st with inError := st.inError + 1,
                events := st.events ++ [.chargedErr inv] }

/-- The outer `while (true)` pagination loop of `chargeInvoices`: fetch a
page at the current `skip`; stop on an empty page; otherwise advance `skip`
by the page size and process the page. -/
def chargeLoop (env : ChargeEnv) (forceOperation : Bool) (limit : Nat) :
    Nat → ChargeState → ChargeState
  | 0, st => st
  | fuel + 1, st =>
    let page := env.store st.skip
    if page.isEmpty then st
    else
      chargeLoop env forceOperation limit fuel
        (page.foldl (processInvoice env forceOperation)
          { st with skip := st.skip + limit, pages := st.pages + 1 })

/-- `chargeInvoices(forceOperation)`: checks connectivity (propagating its
failure), computes the query parameters, and runs the pagination loop
starting from `skip = 0`, returning the final loop state (whose `inSuccess`
and `inError` are the returned `actionsDone`). -/
def chargeInvoices (env : ChargeEnv) (forceOperation : Bool) (fuel : Nat) :
    Except Unit ChargeState :=
  match env.checkConnection with
  | .error e => .error e
  | .ok _ =>
    let q := preparePeriodicBillingQueryParameters env.periodicBillingAllowed
      forceOperation env.now
    .ok (chargeLoop env forceOperation q.limit fuel
      { skip := 0, inSuccess := 0, inError := 0, pages := 0, events := [] })

/-- The number of skip compensations recorded in a trace: the settled
invoices whose post-settlement status is out of the periodic scope. -/
def compensations (periodicBillingAllowed : Bool)
    (evs : List ChargeEvent) : Nat :=
  evs.countP fun e =>
    match e with
    | .chargedOk _ newInv =>
      isInvoiceOutOfPeriodicOperationScope periodicBillingAllowed newInv
    | _ => false

/-- The number of per-item failures recorded in a trace. -/
def erroredCount (evs : List ChargeEvent) : Nat :=
  evs.countP fun e =>
    match e with
    | .chargedErr _ => true
    | _ => false

/-- The number of invoices counted as successes in a trace: same-day skips
and successful settlements. -/
def succeededCount (evs : List ChargeEvent) : Nat :=
  evs.countP fun e =>
    match e with
    | .freshSkip _ => true
    | .chargedOk _ _ => true
    | _ => false

/-! ## Ledger store state (`updateTransactionsBillingData` and the
test-data purge)

The transaction and invoice collections are modelled as lists; storage
operations that may throw for a given transaction (network faults) are
modelled by a failure predicate on the transaction ID. -/

/-- The mutable store state: the transaction and invoice collections. -/
structure StoreState where
  transactions : List Transaction
  invoices : List BillingInvoice
deriving DecidableEq, Repr

/-- `TransactionStorage.getTransaction`: first transaction with the given ID,
`null` when absent. -/
def getTransaction (st : StoreState) (tid : Nat) : Option Transaction :=
  st.transactions.find? fun tx => tx.id == tid

/-- `TransactionStorage.saveTransactionBillingData`: replace the billing data
of the transaction(s) with the given ID. -/
def saveTransactionBillingData (st : StoreState) (tid : Nat)
    (bd : TransactionBillingData) : StoreState :=
  { st with transactions := st.transactions.map fun tx =>
      if tx.id == tid then { tx with billingData := some bd } else tx }

/-- `BillingStorage.deleteInvoice`: remove the invoice with the given ID. -/
def deleteInvoice (st : StoreState) (iid : Nat) : StoreState :=
  { st with invoices := st.invoices.filter fun inv => inv.id ≠ iid }

/-- One iteration of `updateTransactionsBillingData`'s per-session update:
fetch the transaction and, only when it has a populated `billingData.stop`,
mirror the invoice's status and number and refresh `lastUpdate`; a storage
failure (`fails`) is caught and logged, leaving the state unchanged. -/
def updateTxBillingOne (now : Int) (fails : Nat → Bool)
    (inv : BillingInvoice) (st : StoreState) (sess : BillingSession) :
    StoreState :=
  let tid := sess.transactionID
  if fails tid then st
  else
    match getTransaction st tid with
    | none => st
    | some tx =>
      match tx.billingData with
      | none => st
      | some bd =>
        match bd.stop with
        | none => st
        | some stop0 =>
          saveTransactionBillingData st tx.id
            { bd with
              lastUpdate := now,
              stop := some { stop0 with
                invoiceStatus := some inv.status,
                invoiceNumber := some inv.number } }

/-- `updateTransactionsBillingData(billingInvoice)`: throws when the invoice
has no sessions attached; otherwise updates the sessions' transactions (each
failure isolated and logged). -/
def updateTransactionsBillingData (now : Int) (fails : Nat → Bool)
    (inv : BillingInvoice) (st : StoreState) : Except String StoreState :=
  match inv.sessions with
  | none =>
    .error "Unexpected situation - Invoice has no sessions attached to it"
  | some sessions =>
    .ok (sessions.foldl (updateTxBillingOne now fails inv) st)

/-- One iteration of `clearTransactionsTestData`'s per-session reset:
fetch the transaction and overwrite its billing data with the `UNBILLED`
sentinel; a storage failure, or the TypeError raised when the transaction is
`null`, is caught and logged, leaving the state unchanged. -/
def clearTransactionsTestDataOne (now : Int) (fails : Nat → Bool)
    (st : StoreState) (sess : BillingSession) : StoreState :=
  let tid := sess.transactionID
  if fails tid then st
  else
    match getTransaction st tid with
    | none => st
    | some tx =>
      saveTransactionBillingData st tx.id
        { withBillingActive := false, lastUpdate := now,
          stop := some { status := .UNBILLED, invoiceID := none,
                         invoiceNumber := none, invoiceStatus := none } }

/-- `clearInvoiceTestData(billingInvoice)`: throws a fatal `BackendError`
before touching anything when the invoice is flagged live; otherwise clears
the sessions' billing data and deletes the invoice.  Reading `.sessions.map`
on a missing session list throws, modelled as an error. -/
def clearInvoiceTestData (now : Int) (fails : Nat → Bool)
    (st : StoreState) (inv : BillingInvoice) : Except String StoreState :=
  if inv.liveMode then
    .error "Unexpected situation - Attempt to clear an invoice with live Billing data"
  else
    match inv.sessions with
    | none => .error "TypeError: sessions is not iterable"
    | some sessions =>
      .ok (deleteInvoice
        (sessions.foldl (clearTransactionsTestDataOne now fails) st) inv.id)

/-- `clearAllInvoiceTestData`: sweep over the fetched batch of invoices,
catching and logging each per-invoice error and continuing with the next
invoice. -/
def clearAllInvoiceTestData (now : Int) (fails : Nat → Bool)
    (batch : List BillingInvoice) (st : StoreState) : StoreState :=
  batch.foldl
    (fun s inv =>
      match clearInvoiceTestData now fails s inv with
      | .ok s2 => s2
      | .error _ => s) st

/-! ## Theorems -/

/-- Claim C5: `preparePeriodicBillingQueryParameters` returns, for
`forceOperation = true`, a window from today 00:00:00 to today 23:59:59(.999)
with page size 1; for `forceOperation = false`, a window from the first day
of the previous calendar month at 00:00:00 (end-exclusive at the first day of
the current month at 00:00:00, hence covering exactly the previous month)
with the configured batch page size; in both modes the status filter is
{DRAFT, OPEN} when periodic billing of drafts is allowed and {OPEN}
otherwise, and the sort is ascending by creation time. -/
theorem preparePeriodicBillingQueryParameters_windows
    (allowed : Bool) (now : MDate) :
    preparePeriodicBillingQueryParameters allowed true now =
      { startDateTime := { now with msOfDay := 0 },
        endDateTime := { now with msOfDay := 86399999 },
        invoiceStatus :=
          if allowed then [.DRAFT, .OPEN] else [.OPEN],
        limit := 1, sortCreatedOn := 1 } ∧
    preparePeriodicBillingQueryParameters allowed false now =
      { startDateTime :=
          { year := if now.month == 1 then now.year - 1 else now.year,
            month := if now.month == 1 then 12 else now.month - 1,
            day := 1, msOfDay := 0 },
        endDateTime :=
          { year := now.year, month := now.month, day := 1, msOfDay := 0 },
        invoiceStatus :=
          if allowed then [.DRAFT, .OPEN] else [.OPEN],
        limit := BATCH_PAGE_SIZE, sortCreatedOn := 1 } := by
  constructor
  · simp only [preparePeriodicBillingQueryParameters, startOfDay, endOfDay,
      if_true]
  · by_cases h : now.month == 1 <;>
      simp [preparePeriodicBillingQueryParameters, startOfDay, setDate, h]

/-- Claim C6: `checkStartTransaction` returns `false` without raising when
transaction billing is deactivated or the user has free access; raises a
fatal error when the user identity or the charging station is missing; with
the organization component active, raises when the site area is missing and
returns `false` when the site area does not enforce access control; raises
when the user lacks a billing `customerID`; returns `true` when all checks
pass.  Each clause is conditioned on the earlier gates of the sequential
check having passed. -/
theorem checkStartTransaction_eligibility (orgActive : Bool)
    (t : Transaction) (cs : Option ChargingStationB) (sa : Option SiteAreaB) :
    (checkStartTransaction false orgActive t cs sa = .ok false) ∧
    ((truthyStr t.userID = false ∨ t.user = none) →
      checkStartTransaction true orgActive t cs sa =
        .error "User ID is not provided") ∧
    (∀ u, t.user = some u → truthyStr t.userID = true →
      (u.freeAccess = true →
        checkStartTransaction true orgActive t cs sa = .ok false) ∧
      (u.freeAccess = false →
        (cs = none →
          checkStartTransaction true orgActive t cs sa =
            .error "The Charging Station is mandatory to start a Transaction") ∧
        (∀ c, cs = some c →
          (orgActive = true → sa = none →
            checkStartTransaction true orgActive t cs sa =
              .error "The Site Area is mandatory to start a Transaction") ∧
          (∀ a, sa = some a → orgActive = true → a.accessControl = false →
            checkStartTransaction true orgActive t cs sa = .ok false) ∧
          ((orgActive = false ∨
              (∃ a, sa = some a ∧ a.accessControl = true)) →
            (truthyStr (u.billingData.bind fun bd => bd.customerID) = false →
              checkStartTransaction true orgActive t cs sa =
                .error "User has no Billing data or no Customer ID") ∧
            (truthyStr (u.billingData.bind fun bd => bd.customerID) = true →
              checkStartTransaction true orgActive t cs sa = .ok true))))) := by
  refine ⟨by simp [checkStartTransaction], ?_, ?_⟩
  · intro h
    rcases h with h | h <;>
      simp [checkStartTransaction, h, Option.isNone_iff_eq_none]
  · intro u hu htr
    refine ⟨?_, ?_⟩
    · intro hfree
      simp [checkStartTransaction, hu, htr, hfree]
    · intro hfree
      refine ⟨?_, ?_⟩
      · intro hcs
        simp [checkStartTransaction, hu, htr, hfree, hcs]
      · intro c hc
        refine ⟨?_, ?_, ?_⟩
        · intro horg hsa
          simp [checkStartTransaction, hu, htr, hfree, hc, horg, hsa]
        · intro a ha horg hac
          simp [checkStartTransaction, hu, htr, hfree, hc, horg, ha, hac]
        · intro hpass
          refine ⟨?_, ?_⟩ <;> intro hcust
          · rcases hpass with horg | ⟨a, ha, hac⟩
            · simp [checkStartTransaction, hu, htr, hfree, hc, horg, hcust]
            · simp [checkStartTransaction, hu, htr, hfree, hc, ha, hac, hcust]
          · rcases hpass with horg | ⟨a, ha, hac⟩
            · simp [checkStartTransaction, hu, htr, hfree, hc, horg, hcust]
            · simp [checkStartTransaction, hu, htr, hfree, hc, ha, hac, hcust]

/-- Claim C6 witness: a fully eligible concrete transaction (billing active,
user present without free access, station present, organization active with
an access-controlled site area, customer linked) is accepted. -/
theorem checkStartTransaction_eligibility_witness :
    checkStartTransaction true true
      { id := 7, userID := some "U1",
        user := some { id := "U1", freeAccess := false, billingData := some { customerID := some "cus_1", liveMode := true } },
        timestampMs := 0, lastConsumptionTimestampMs := 0,
        stop := none, billingData := none }
      (some { id := "CS-1" }) (some { accessControl := true }) = .ok true := by
  have h := checkStartTransaction_eligibility true
    { id := 7, userID := some "U1",
      user := some { id := "U1", freeAccess := false, billingData := some { customerID := some "cus_1", liveMode := true } },
      timestampMs := 0, lastConsumptionTimestampMs := 0,
      stop := none, billingData := none }
    (some { id := "CS-1" }) (some { accessControl := true })
  exact ((((h.2.2 _ rfl (by decide)).2 rfl).2 _ rfl).2.2
    (Or.inr ⟨_, rfl, rfl⟩)).2 (by decide)

/-- Claim C7: in a production-like environment (`isDevelopmentEnv` false),
`checkBillingDataThreshold` returns `false` for a transaction whose elapsed
time is under 60 seconds or whose consumption is under 1000 Wh, and `true`
when both thresholds are met; in a development environment the check is
bypassed and it returns `true` regardless. -/
theorem checkBillingDataThreshold_spec (t : Transaction)
    (st : TransactionStop) (hstop : t.stop = some st) :
    (computeTimeSpentInSeconds t < 60 ∨ st.totalConsumptionWh < 1000 →
      checkBillingDataThreshold false t = some false) ∧
    (60 ≤ computeTimeSpentInSeconds t → 1000 ≤ st.totalConsumptionWh →
      checkBillingDataThreshold false t = some true) ∧
    (∀ t2 : Transaction, checkBillingDataThreshold true t2 = some true) := by
  refine ⟨?_, ?_, fun t2 => by simp [checkBillingDataThreshold]⟩
  · intro h
    rcases h with h | h
    · simp [checkBillingDataThreshold, h]
    · by_cases hlt : computeTimeSpentInSeconds t < 60 <;>
        simp [checkBillingDataThreshold, hlt, hstop, h]
  · intro h1 h2
    simp [checkBillingDataThreshold, hstop, not_lt.mpr h1, not_lt.mpr h2]

/-- Claim C7 witness: a 30-second, 500 Wh production transaction is rejected
(`false`); a 120-second, 2000 Wh one is accepted (`true`); the 30-second one
passes in a development environment. -/
theorem checkBillingDataThreshold_spec_witness :
    checkBillingDataThreshold false
      { id := 1, userID := none, user := none, timestampMs := 0,
        lastConsumptionTimestampMs := 0,
        stop := some { timestampMs := 30000, totalConsumptionWh := 500 },
        billingData := none } = some false ∧
    checkBillingDataThreshold false
      { id := 2, userID := none, user := none, timestampMs := 0,
        lastConsumptionTimestampMs := 0,
        stop := some { timestampMs := 120000, totalConsumptionWh := 2000 },
        billingData := none } = some true := by
  constructor
  · exact (checkBillingDataThreshold_spec _ _ rfl).1
      (Or.inl (by norm_num [computeTimeSpentInSeconds]))
  · exact (checkBillingDataThreshold_spec _ _ rfl).2.1
      (by norm_num [computeTimeSpentInSeconds]) (by norm_num)

/-- Claim C1: in forced/repair synchronization (`_synchronizeUser` with
`forceMode = true`), whenever `getUser` errors (including the provider's
explicit not-found outcome), `repairUser` is invoked exactly once and
neither `createUser` nor `updateUser` is invoked; whenever `getUser`
succeeds, the synchronizer falls through to `createUser` when the fetched
record is empty and to `updateUser` otherwise. -/
theorem forceSynchronizeUser_repair_path (p : SyncProvider) :
    (∀ e, p.getUser = .error e →
      (_synchronizeUser p true).2 = [.get, .repair] ∧
      ((_synchronizeUser p true).2.count .repair = 1 ∧
       (_synchronizeUser p true).2.count .create = 0 ∧
       (_synchronizeUser p true).2.count .update = 0)) ∧
    (p.getUser = .ok none →
      (_synchronizeUser p true).2.count .create = 1 ∧
      (_synchronizeUser p true).2.count .update = 0) ∧
    (∀ u, p.getUser = .ok (some u) →
      (_synchronizeUser p true).2.count .update = 1 ∧
      (_synchronizeUser p true).2.count .create = 0) := by
  refine ⟨?_, ?_, ?_⟩
  · intro e he
    simp [_synchronizeUser, he, List.count]
  · intro he
    cases hc : p.createUser <;>
      simp [_synchronizeUser, he, hc, List.count]
  · intro u he
    cases hc : p.updateUser <;>
      simp [_synchronizeUser, he, hc, List.count]

/-- Claim C1 witness: a provider whose `get` throws the explicit not-found
error leads forced synchronization to the repair operation, exactly once,
with no direct create/update. -/
theorem forceSynchronizeUser_repair_path_witness :
    (_synchronizeUser { isUserSynchronized := .ok true, getUser := .error .notFound, createUser := .ok none, updateUser := .ok none, repairUser := .ok (some { customerID := "cus_new" }) } true).2 = [.get, .repair] :=
  ((forceSynchronizeUser_repair_path _).1 .notFound rfl).1

/-- Claim C8: `synchronizeUser` and `forceSynchronizeUser` never throw to
their caller: for every provider behaviour they return `.ok`, and whenever
the underlying `_synchronizeUser` throws, the caught error yields the null
sentinel. -/
theorem synchronizeUser_never_throws (p : SyncProvider) :
    (∃ r, synchronizeUser p = .ok r) ∧
    (∃ r, forceSynchronizeUser p = .ok r) ∧
    (∀ e, (_synchronizeUser p false).1 = .error e →
      synchronizeUser p = .ok none) ∧
    (∀ e, (_synchronizeUser p true).1 = .error e →
      forceSynchronizeUser p = .ok none) := by
  refine ⟨?_, ?_, ?_, ?_⟩
  · cases h : (_synchronizeUser p false).1 with
    | error e => exact ⟨none, by simp [synchronizeUser, h]⟩
    | ok u => exact ⟨u, by simp [synchronizeUser, h]⟩
  · cases h : (_synchronizeUser p true).1 with
    | error e => exact ⟨none, by simp [forceSynchronizeUser, h]⟩
    | ok u => exact ⟨u, by simp [forceSynchronizeUser, h]⟩
  · intro e he
    simp [synchronizeUser, he]
  · intro e he
    simp [forceSynchronizeUser, he]

/-- Claim C8 witness: with a provider whose every operation throws, forced
synchronization still returns the null sentinel rather than throwing. -/
theorem synchronizeUser_never_throws_witness :
    forceSynchronizeUser { isUserSynchronized := .error (.other 1), getUser := .error (.other 2), createUser := .error (.other 3), updateUser := .error (.other 4), repairUser := .error (.other 5) } = .ok none :=
  (synchronizeUser_never_throws _).2.2.2 (.other 5) rfl

/-- A concrete notification environment for the C3 scenario: tenant lookup
succeeds and formatting succeeds. -/
def c3Env : NotifyEnv :=
  { getTenant := .ok { subdomain := "acme" },
    format := fun _ _ _ => .ok "10,50 €" }

/-- A concrete DRAFT invoice for the C3 scenario. -/
def c3DraftInvoice : BillingInvoice :=
  { id := 1, status := .DRAFT, createdOnDay := 0, liveMode := false,
    amount := 1050, currency := "eur", number := "INV-1",
    payInvoiceUrl := "https://pay/1", userLocale := "en_US",
    sessions := none }

/-- Claim C3 counterexample: on a DRAFT invoice, `sendInvoiceNotification`
dispatches nothing but does not return `true` either — no `return`
statement executes, so the result is `undefined` (modelled `none`), refuting
the claim that it returns `true`. -/
theorem sendInvoiceNotification_draft_counterexample :
    (sendInvoiceNotification c3Env c3DraftInvoice).1 ≠ some true ∧
    (sendInvoiceNotification c3Env c3DraftInvoice).1 = none ∧
    (sendInvoiceNotification c3Env c3DraftInvoice).2 = none := by
  refine ⟨?_, rfl, rfl⟩
  simp [sendInvoiceNotification, c3Env, c3DraftInvoice]

/-- Claim C3 (amended): for every invoice whose status is neither OPEN nor
PAID, `sendInvoiceNotification` dispatches no notification and returns
`undefined` (no boolean), not `true`; for status OPEN (with tenant lookup
and formatting succeeding) it returns `true` and dispatches a notification
whose amount is the minor-unit amount divided by 100 together with the
upper-cased currency code, locale/currency formatted; a tenant-lookup or
formatting error is caught and yields `false` rather than a thrown
exception. -/
theorem sendInvoiceNotification_amended (env : NotifyEnv)
    (inv : BillingInvoice) :
    (inv.status ≠ .OPEN → inv.status ≠ .PAID →
      sendInvoiceNotification env inv = (none, none)) ∧
    ((inv.status = .OPEN ∨ inv.status = .PAID) →
      (∀ e, env.getTenant = .error e →
        sendInvoiceNotification env inv = (some false, none)) ∧
      (∀ tnt, env.getTenant = .ok tnt →
        (∀ e, env.format inv.userLocale (toUpperString inv.currency)
            ((inv.amount : ℚ) / 100) = .error e →
          sendInvoiceNotification env inv = (some false, none)) ∧
        (∀ s, env.format inv.userLocale (toUpperString inv.currency)
            ((inv.amount : ℚ) / 100) = .ok s →
          sendInvoiceNotification env inv =
            (some true, some
              { subdomain := tnt.subdomain,
                payInvoiceUrl :=
                  if inv.status = .OPEN then inv.payInvoiceUrl else "",
                amountValue := (inv.amount : ℚ) / 100,
                currency := toUpperString inv.currency, formattedAmount := s,
                invoiceNumber := inv.number,
                invoiceStatus := inv.status })))) := by
  refine ⟨?_, ?_⟩
  · intro h1 h2
    simp [sendInvoiceNotification, h1, h2]
  · intro hst
    refine ⟨?_, ?_⟩
    · intro e he
      simp [sendInvoiceNotification, hst, he]
    · intro tnt ht
      refine ⟨?_, ?_⟩
      · intro e he
        simp [sendInvoiceNotification, hst, ht, he]
      · intro s hs
        simp [sendInvoiceNotification, hst, ht, hs]

/-- Claim C3 witness: an OPEN invoice over 1050 minor units of "eur" yields
`true` and a dispatched amount of 10.50 with currency "EUR". -/
theorem sendInvoiceNotification_amended_witness :
    sendInvoiceNotification c3Env { c3DraftInvoice with status := .OPEN } =
      (some true, some
        { subdomain := "acme", payInvoiceUrl := "https://pay/1",
          amountValue := (21 : ℚ) / 2, currency := "EUR",
          formattedAmount := "10,50 €", invoiceNumber := "INV-1",
          invoiceStatus := .OPEN }) := by
  have h := ((sendInvoiceNotification_amended c3Env
    { c3DraftInvoice with status := .OPEN }).2 (Or.inl rfl)).2
    { subdomain := "acme" } rfl |>.2 "10,50 €" rfl
  rw [h]
  simp only [c3DraftInvoice, Prod.mk.injEq, Option.some.injEq,
    NotifyDispatch.mk.injEq]
  norm_num
  decide

/-- Per-invoice step accounting: processing one invoice keeps the page count,
keeps `skip` plus the number of recorded compensations constant, and changes
each aggregate counter exactly in step with the recorded events. -/
lemma processInvoice_step (env : ChargeEnv) (force : Bool) (st : ChargeState)
    (inv : BillingInvoice) :
    (processInvoice env force st inv).pages = st.pages ∧
    (processInvoice env force st inv).skip
      + (compensations env.periodicBillingAllowed
          (processInvoice env force st inv).events : ℤ) =
      st.skip
        + (compensations env.periodicBillingAllowed st.events : ℤ) ∧
    (processInvoice env force st inv).inError + erroredCount st.events =
      st.inError + erroredCount (processInvoice env force st inv).events ∧
    (processInvoice env force st inv).inSuccess + succeededCount st.events =
      st.inSuccess + succeededCount (processInvoice env force st inv).events := by
  by_cases h1 : isInvoiceOutOfPeriodicOperationScope env.periodicBillingAllowed inv
  · simp [processInvoice, h1, compensations, erroredCount, succeededCount,
      List.countP_append]
  · by_cases h2 : (!force && inv.createdOnDay == env.todayDay) = true
    · simp [processInvoice, h1, h2, compensations, erroredCount,
        succeededCount, List.countP_append]
      omega
    · cases hc : env.charge inv with
      | ok newInv =>
        by_cases h3 : isInvoiceOutOfPeriodicOperationScope
            env.periodicBillingAllowed newInv
        all_goals
          simp [processInvoice, h1, h2, hc, h3, compensations,
            erroredCount, succeededCount, List.countP_append]
          omega
      | error e =>
        simp [processInvoice, h1, h2, hc, compensations, erroredCount,
          succeededCount, List.countP_append]
        omega

/-- Page-level accounting: folding `processInvoice` over a page preserves the
page count and the three step invariants of `processInvoice_step`. -/
lemma foldl_processInvoice_inv (env : ChargeEnv) (force : Bool)
    (page : List BillingInvoice) :
    ∀ st : ChargeState,
    (page.foldl (processInvoice env force) st).pages = st.pages ∧
    (page.foldl (processInvoice env force) st).skip
      + (compensations env.periodicBillingAllowed
          (page.foldl (processInvoice env force) st).events : ℤ) =
      st.skip + (compensations env.periodicBillingAllowed st.events : ℤ) ∧
    (page.foldl (processInvoice env force) st).inError
        + erroredCount st.events =
      st.inError
        + erroredCount (page.foldl (processInvoice env force) st).events ∧
    (page.foldl (processInvoice env force) st).inSuccess
        + succeededCount st.events =
      st.inSuccess
        + succeededCount (page.foldl (processInvoice env force) st).events := by
  induction page with
  | nil => intro st; simp
  | cons inv rest ih =>
    intro st
    have hstep := processInvoice_step env force st inv
    have hrest := ih (processInvoice env force st inv)
    simp only [List.foldl_cons]
    refine ⟨by omega, by omega, by omega, by omega⟩

/-- Loop-level accounting: across the whole pagination loop, `skip` plus the
number of recorded compensations minus `limit` times the number of fetched
pages is invariant, and the aggregate counters track the recorded events. -/
lemma chargeLoop_inv (env : ChargeEnv) (force : Bool) (limit : Nat) :
    ∀ (fuel : Nat) (st : ChargeState),
    (chargeLoop env force limit fuel st).skip
      + (compensations env.periodicBillingAllowed
          (chargeLoop env force limit fuel st).events : ℤ)
      - limit * (chargeLoop env force limit fuel st).pages =
      st.skip + (compensations env.periodicBillingAllowed st.events : ℤ)
        - limit * st.pages ∧
    (chargeLoop env force limit fuel st).inError + erroredCount st.events =
      st.inError + erroredCount (chargeLoop env force limit fuel st).events ∧
    (chargeLoop env force limit fuel st).inSuccess
        + succeededCount st.events =
      st.inSuccess
        + succeededCount (chargeLoop env force limit fuel st).events := by
  intro fuel
  induction fuel with
  | zero => intro st; simp [chargeLoop]
  | succ n ih =>
    intro st
    by_cases hp : (env.store st.skip).isEmpty
    · simp [chargeLoop, hp]
    · have hfold := foldl_processInvoice_inv env force (env.store st.skip)
        { st with skip := st.skip + limit, pages := st.pages + 1 }
      have hrec := ih ((env.store st.skip).foldl (processInvoice env force)
        { st with skip := st.skip + limit, pages := st.pages + 1 })
      simp only [chargeLoop, hp, Bool.false_eq_true, if_false]
      obtain ⟨f1, f2, f3, f4⟩ := hfold
      obtain ⟨r1, r2, r3⟩ := hrec
      simp only at f1 f2 f3 f4
      refine ⟨?_, by omega, by omega⟩
      rw [r1, f1]
      push_cast
      ring_nf
      ring_nf at f2
      omega

/-- Claim C2: over a whole `chargeInvoices` run (started at `skip = 0`), the
`skip` counter is decremented exactly once per settled invoice whose
post-settlement status is out of periodic scope and never otherwise: the
final `skip` plus the number of such transitions recorded in the trace
equals the page size times the number of fetched pages, i.e. the run
performs exactly N compensations for N out-of-scope transitions. -/
theorem chargeInvoices_skip_compensation (env : ChargeEnv) (force : Bool)
    (fuel : Nat) (st2 : ChargeState)
    (h : chargeInvoices env force fuel = .ok st2) :
    st2.skip + (compensations env.periodicBillingAllowed st2.events : ℤ) =
      ((preparePeriodicBillingQueryParameters env.periodicBillingAllowed
          force env.now).limit : ℤ) * st2.pages := by
  cases hc : env.checkConnection with
  | error e => simp [chargeInvoices, hc] at h
  | ok u =>
    simp only [chargeInvoices, hc] at h
    injection h with h4
    subst h4
    have hloop := chargeLoop_inv env force
      (preparePeriodicBillingQueryParameters env.periodicBillingAllowed
        force env.now).limit fuel
      { skip := 0, inSuccess := 0, inError := 0, pages := 0, events := [] }
    have h1 := hloop.1
    simp only [compensations, List.countP_nil, Nat.cast_zero, add_zero,
      mul_zero, sub_zero, zero_add] at h1
    simp only [compensations]
    omega

/-- The invoice of the C2 witness run. -/
def c2Invoice : BillingInvoice :=
  { id := 10, status := .OPEN, createdOnDay := 0, liveMode := true,
    amount := 0, currency := "eur", number := "I-10", payInvoiceUrl := "",
    userLocale := "en", sessions := none }

/-- The environment of the C2 witness run: one page holding one OPEN
invoice, whose settlement turns it PAID (out of scope). -/
def c2Env : ChargeEnv :=
  { checkConnection := .ok (),
    store := fun skip => if skip == 0 then [c2Invoice] else [],
    charge := fun inv => .ok { inv with status := .PAID },
    todayDay := 99, periodicBillingAllowed := false,
    now := { year := 2026, month := 10, day := 11, msOfDay := 0 } }

/-- The final loop state of the C2 witness run. -/
def c2RunState : ChargeState :=
  { skip := 0, inSuccess := 1, inError := 0, pages := 1,
    events := [.chargedOk c2Invoice { c2Invoice with status := .PAID }] }

/-- Claim C2 witness: the concrete forced run settles one OPEN invoice into
PAID and compensates `skip` exactly once. -/
theorem chargeInvoices_skip_compensation_witness :
    c2RunState.skip
      + (compensations c2Env.periodicBillingAllowed c2RunState.events : ℤ) =
      ((preparePeriodicBillingQueryParameters c2Env.periodicBillingAllowed
          true c2Env.now).limit : ℤ) * c2RunState.pages := by
  have h : chargeInvoices c2Env true 1 = .ok c2RunState := by rfl
  exact chargeInvoices_skip_compensation c2Env true 1 c2RunState h

/-- Claim C4: `chargeInvoices` raises to its caller exactly when the initial
connectivity check raises; otherwise it returns aggregate counts in which
`inError` is exactly the number of per-item failures recorded in the trace
(each error incremented the counter and did not abort the loop) and
`inSuccess` the number of items counted as successes. -/
theorem chargeInvoices_error_isolation (env : ChargeEnv) (force : Bool)
    (fuel : Nat) :
    (∀ e, chargeInvoices env force fuel = .error e ↔
      env.checkConnection = .error e) ∧
    (∀ st2, chargeInvoices env force fuel = .ok st2 →
      st2.inError = erroredCount st2.events ∧
      st2.inSuccess = succeededCount st2.events) := by
  constructor
  · intro e
    cases hc : env.checkConnection with
    | error e2 => simp [chargeInvoices, hc]
    | ok u => simp [chargeInvoices, hc]
  · intro st2 h
    cases hc : env.checkConnection with
    | error e => simp [chargeInvoices, hc] at h
    | ok u =>
      simp only [chargeInvoices, hc] at h
      injection h with h4
      subst h4
      have hloop := chargeLoop_inv env force
        (preparePeriodicBillingQueryParameters env.periodicBillingAllowed
          force env.now).limit fuel
        { skip := 0, inSuccess := 0, inError := 0, pages := 0, events := [] }
      have h2 := hloop.2.1
      have h3 := hloop.2.2
      simp only [erroredCount, succeededCount, List.countP_nil, add_zero,
        zero_add] at h2 h3
      simp only [erroredCount, succeededCount]
      omega

/-- The invoices of the C4 witness run: settlement of the first fails, the
second succeeds. -/
def c4InvoiceA : BillingInvoice :=
  { id := 1, status := .OPEN, createdOnDay := 0, liveMode := true,
    amount := 0, currency := "eur", number := "I-1", payInvoiceUrl := "",
    userLocale := "en", sessions := none }

/-- Second invoice of the C4 witness run. -/
def c4InvoiceB : BillingInvoice :=
  { id := 2, status := .OPEN, createdOnDay := 0, liveMode := true,
    amount := 0, currency := "eur", number := "I-2", payInvoiceUrl := "",
    userLocale := "en", sessions := none }

/-- The environment of the C4 witness run: one page with two OPEN invoices;
charging invoice 1 throws, charging invoice 2 succeeds. -/
def c4Env : ChargeEnv :=
  { checkConnection := .ok (),
    store := fun skip => if skip == 0 then [c4InvoiceA, c4InvoiceB] else [],
    charge := fun inv =>
      if inv.id == 1 then .error () else .ok { inv with status := .PAID },
    todayDay := 99, periodicBillingAllowed := false,
    now := { year := 2026, month := 10, day := 11, msOfDay := 0 } }

/-- The final loop state of the C4 witness run. -/
def c4RunState : ChargeState :=
  { skip := 0, inSuccess := 1, inError := 1, pages := 1,
    events := [.chargedErr c4InvoiceA,
      .chargedOk c4InvoiceB { c4InvoiceB with status := .PAID }] }

/-- Claim C4 witness: in the concrete run the first invoice's failure is
counted in `inError` while the loop continued and settled the second
invoice. -/
theorem chargeInvoices_error_isolation_witness :
    c4RunState.inError = erroredCount c4RunState.events ∧
    c4RunState.inSuccess = succeededCount c4RunState.events := by
  have h : chargeInvoices c4Env true 1 = .ok c4RunState := by rfl
  exact (chargeInvoices_error_isolation c4Env true 1).2 c4RunState h

/-- Claim C9: the purge refuses live invoices: `clearInvoiceTestData` on an
invoice flagged live raises the fatal error before touching anything, and in
the `clearAllInvoiceTestData` sweep the error is caught so that the batch
result is as if the live invoice were absent — it is not deleted, none of
its sessions' billing data is cleared, and the remaining invoices are still
processed. -/
theorem clearInvoiceTestData_live_guard (now : Int) (fails : Nat → Bool)
    (inv : BillingInvoice) (st : StoreState) (hlive : inv.liveMode = true) :
    clearInvoiceTestData now fails st inv =
      .error "Unexpected situation - Attempt to clear an invoice with live Billing data" ∧
    (∀ pre post, clearAllInvoiceTestData now fails (pre ++ inv :: post) st =
      clearAllInvoiceTestData now fails (pre ++ post) st) := by
  have herr : ∀ s, clearInvoiceTestData now fails s inv =
      .error "Unexpected situation - Attempt to clear an invoice with live Billing data" :=
    fun s => by simp [clearInvoiceTestData, hlive]
  refine ⟨herr st, ?_⟩
  intro pre post
  simp [clearAllInvoiceTestData, List.foldl_append, herr]

/-- The live invoice of the C9 witness scenario. -/
def c9LiveInvoice : BillingInvoice :=
  { id := 100, status := .PAID, createdOnDay := 0, liveMode := true,
    amount := 500, currency := "eur", number := "L-1", payInvoiceUrl := "",
    userLocale := "en", sessions := some [{ transactionID := 1 }] }

/-- The non-live invoice of the C9 witness scenario. -/
def c9TestInvoice : BillingInvoice :=
  { id := 101, status := .PAID, createdOnDay := 0, liveMode := false,
    amount := 500, currency := "eur", number := "T-1", payInvoiceUrl := "",
    userLocale := "en", sessions := some [] }

/-- The store of the C9 witness scenario. -/
def c9Store : StoreState :=
  { transactions := [], invoices := [c9LiveInvoice, c9TestInvoice] }

/-- Claim C9 witness: a batch headed by a live invoice behaves exactly as the
batch without it (the live invoice raises, is skipped, and the second invoice
is still processed). -/
theorem clearInvoiceTestData_live_guard_witness :
    clearInvoiceTestData 0 (fun _ => false) c9Store c9LiveInvoice =
      .error "Unexpected situation - Attempt to clear an invoice with live Billing data" ∧
    clearAllInvoiceTestData 0 (fun _ => false) [c9LiveInvoice, c9TestInvoice]
        c9Store =
      clearAllInvoiceTestData 0 (fun _ => false) [c9TestInvoice] c9Store :=
  ⟨(clearInvoiceTestData_live_guard 0 (fun _ => false) c9LiveInvoice c9Store
      rfl).1,
   (clearInvoiceTestData_live_guard 0 (fun _ => false) c9LiveInvoice c9Store
      rfl).2 [] [c9TestInvoice]⟩

/-- Replacing the billing data of the transactions with a given ID keeps
every transaction's ID. -/
lemma map_id_save (l : List Transaction) (tid : Nat)
    (bd : TransactionBillingData) :
    ((l.map fun tx =>
        if tx.id == tid then { tx with billingData := some bd } else tx).map
      fun tx => tx.id) = l.map fun tx => tx.id := by
  rw [List.map_map]
  apply List.map_congr_left
  intro a _
  by_cases h : a.id == tid <;> simp [Function.comp, h]

/-- One per-session update step keeps the list of transaction IDs. -/
lemma updateTxBillingOne_ids (now : Int) (fails : Nat → Bool)
    (inv : BillingInvoice) (st : StoreState) (sess : BillingSession) :
    ((updateTxBillingOne now fails inv st sess).transactions.map
      fun tx => tx.id) = st.transactions.map fun tx => tx.id := by
  by_cases hf : fails sess.transactionID
  · simp [updateTxBillingOne, hf]
  · cases hg : getTransaction st sess.transactionID with
    | none => simp [updateTxBillingOne, hf, hg]
    | some tx =>
      cases hbd : tx.billingData with
      | none => simp [updateTxBillingOne, hf, hg, hbd]
      | some bd =>
        cases hstp : bd.stop with
        | none => simp [updateTxBillingOne, hf, hg, hbd, hstp]
        | some stop0 =>
          simp [updateTxBillingOne, hf, hg, hbd, hstp,
            saveTransactionBillingData, List.map_map]
          intro a _
          by_cases h : a.id = tx.id <;> simp [h]

/-- In a list of transactions with pairwise distinct IDs, looking up a
member's ID finds exactly that member. -/
lemma find?_eq_of_nodup (l : List Transaction) (tx : Transaction)
    (hnd : (l.map fun t => t.id).Nodup) (hmem : tx ∈ l) :
    (l.find? fun t => t.id == tx.id) = some tx := by
  induction l with
  | nil => cases hmem
  | cons a rest ih =>
    simp only [List.map_cons, List.nodup_cons] at hnd
    rcases List.mem_cons.mp hmem with h | h
    · subst h
      simp [List.find?_cons]
    · have hne : (a.id == tx.id) = false := by
        apply beq_eq_false_iff_ne.mpr
        intro hEq
        exact hnd.1 (hEq ▸ List.mem_map_of_mem (fun t => t.id) h)
      simp [List.find?_cons, hne]
      exact ih hnd.2 h

/-- One per-session update step leaves untouched any transaction that the
session does not reference, or whose storage access fails, or that lacks a
populated `billingData.stop`. -/
lemma updateTxBillingOne_preserve (now : Int) (fails : Nat → Bool)
    (inv : BillingInvoice) (st : StoreState) (sess : BillingSession)
    (tx : Transaction) (hmem : tx ∈ st.transactions)
    (hnd : (st.transactions.map fun t => t.id).Nodup)
    (hunt : sess.transactionID = tx.id →
      fails tx.id = true ∨ (tx.billingData.bind fun bd => bd.stop) = none) :
    tx ∈ (updateTxBillingOne now fails inv st sess).transactions := by
  by_cases hf : fails sess.transactionID
  · simpa [updateTxBillingOne, hf] using hmem
  · cases hg : getTransaction st sess.transactionID with
    | none => simpa [updateTxBillingOne, hf, hg] using hmem
    | some tx2 =>
      have hg2 : st.transactions.find?
          (fun t => t.id == sess.transactionID) = some tx2 := hg
      have htx2id : (tx2.id == sess.transactionID) = true := by
        have h3 := List.find?_some hg2
        simpa using h3
      cases hbd : tx2.billingData with
      | none => simpa [updateTxBillingOne, hf, hg, hbd] using hmem
      | some bd =>
        cases hstp : bd.stop with
        | none => simpa [updateTxBillingOne, hf, hg, hbd, hstp] using hmem
        | some stop0 =>
          simp only [updateTxBillingOne, hf, hg, hbd, hstp,
            saveTransactionBillingData, Bool.false_eq_true, if_false]
          by_cases hid : tx.id == tx2.id
          · exfalso
            have h1 : tx2.id = sess.transactionID := by simpa using htx2id
            have h2 : tx.id = tx2.id := by simpa using hid
            have hsid : sess.transactionID = tx.id := by rw [h2, h1]
            rcases hunt hsid with hfl | hsl
            · rw [hsid] at hf; exact hf hfl
            · have hfind : st.transactions.find?
                  (fun t => t.id == tx.id) = some tx :=
                find?_eq_of_nodup st.transactions tx hnd hmem
              have hfind2 : st.transactions.find?
                  (fun t => t.id == sess.transactionID) = some tx := by
                rw [hsid]; exact hfind
              rw [hg2] at hfind2
              have heqtx : tx2 = tx := by
                injection hfind2
              subst heqtx
              rw [hbd] at hsl
              simp [hstp] at hsl
          · have : (fun t =>
                if t.id == tx2.id then
                  { t with billingData := some { bd with lastUpdate := now, stop := some { stop0 with invoiceStatus := some inv.status, invoiceNumber := some inv.number } } }
                else t) tx = tx := by
              simp [hid]
            exact this ▸ List.mem_map_of_mem _ hmem

/-- The whole per-session fold leaves untouched any transaction that, for
every session referencing it, either suffers a storage failure or lacks a
populated `billingData.stop`. -/
lemma updateFold_preserve (now : Int) (fails : Nat → Bool)
    (inv : BillingInvoice) (sessions : List BillingSession) :
    ∀ (st : StoreState) (tx : Transaction), tx ∈ st.transactions →
    (st.transactions.map fun t => t.id).Nodup →
    (∀ s ∈ sessions, s.transactionID = tx.id →
      fails tx.id = true ∨ (tx.billingData.bind fun bd => bd.stop) = none) →
    tx ∈ (sessions.foldl (updateTxBillingOne now fails inv) st).transactions := by
  induction sessions with
  | nil => intro st tx hmem _ _; simpa using hmem
  | cons s rest ih =>
    intro st tx hmem hnd hunt
    simp only [List.foldl_cons]
    apply ih
    · exact updateTxBillingOne_preserve now fails inv st s tx hmem hnd
        (hunt s (List.mem_cons_self s rest))
    · rw [updateTxBillingOne_ids]
      exact hnd
    · intro s2 hs2 heq
      exact hunt s2 (List.mem_cons_of_mem s hs2) heq

/-- Saving billing data keeps distinctness of the transaction IDs. -/
lemma saveTransactionBillingData_nodup (st : StoreState) (tid : Nat)
    (bd : TransactionBillingData)
    (h : (st.transactions.map fun t => t.id).Nodup) :
    ((saveTransactionBillingData st tid bd).transactions.map
      fun t => t.id).Nodup := by
  simp only [saveTransactionBillingData]
  rw [map_id_save]
  exact h

/-- Saving billing data for a member transaction's ID puts the updated
transaction in the store. -/
lemma mem_save_self (st : StoreState) (tx : Transaction)
    (bd : TransactionBillingData) (hmem : tx ∈ st.transactions) :
    { tx with billingData := some bd } ∈
      (saveTransactionBillingData st tx.id bd).transactions := by
  simp only [saveTransactionBillingData]
  have h : (fun t : Transaction =>
      if t.id == tx.id then { t with billingData := some bd } else t) tx =
      { tx with billingData := some bd } := by simp
  exact h ▸ List.mem_map_of_mem _ hmem

/-- The whole per-session fold mirrors the invoice status and number into
every referenced transaction that has a populated `billingData.stop` and
whose own storage access does not fail — regardless of failures on the
other sessions. -/
lemma updateFold_update (now : Int) (fails : Nat → Bool)
    (inv : BillingInvoice) (sessions : List BillingSession) :
    ∀ (st : StoreState) (tx : Transaction) (bd : TransactionBillingData)
      (stop0 : BillingDataTransactionStop),
    tx ∈ st.transactions →
    (st.transactions.map fun t => t.id).Nodup →
    (sessions.map fun s => s.transactionID).Nodup →
    tx.billingData = some bd → bd.stop = some stop0 →
    ∀ s ∈ sessions, s.transactionID = tx.id → fails tx.id = false →
    { tx with billingData := some { bd with lastUpdate := now, stop := some { stop0 with invoiceStatus := some inv.status, invoiceNumber := some inv.number } } } ∈
      (sessions.foldl (updateTxBillingOne now fails inv) st).transactions := by
  induction sessions with
  | nil => intro st tx bd stop0 _ _ _ _ _ s hs; cases hs
  | cons s0 rest ih =>
    intro st tx bd stop0 hmem hnd hndS hbd hstp s hs hsid hfl
    simp only [List.map_cons, List.nodup_cons] at hndS
    rcases List.mem_cons.mp hs with hhead | htail
    · subst hhead
      have hfind : getTransaction st s.transactionID = some tx := by
        show st.transactions.find? (fun t => t.id == s.transactionID) = some tx
        rw [hsid]
        exact find?_eq_of_nodup st.transactions tx hnd hmem
      have hf0 : fails s.transactionID = false := by rw [hsid]; exact hfl
      simp only [List.foldl_cons]
      have hstep : updateTxBillingOne now fails inv st s =
          saveTransactionBillingData st tx.id
            { bd with lastUpdate := now, stop := some { stop0 with invoiceStatus := some inv.status, invoiceNumber := some inv.number } } := by
        simp [updateTxBillingOne, hf0, hfind, hbd, hstp]
      rw [hstep]
      apply updateFold_preserve
      · exact mem_save_self st tx _ hmem
      · exact saveTransactionBillingData_nodup st tx.id _ hnd
      · intro s2 hs2 heq
        exfalso
        apply hndS.1
        rw [← hsid] at heq
        exact heq ▸ List.mem_map_of_mem (fun s => s.transactionID) hs2
    · have hne : s0.transactionID ≠ tx.id := by
        intro hEq
        apply hndS.1
        rw [hEq, ← hsid]
        exact List.mem_map_of_mem (fun s => s.transactionID) htail
      simp only [List.foldl_cons]
      apply ih
      · exact updateTxBillingOne_preserve now fails inv st s0 tx hmem hnd
          (fun h => absurd h hne)
      · rw [updateTxBillingOne_ids]; exact hnd
      · exact hndS.2
      · exact hbd
      · exact hstp
      · exact htail
      · exact hsid
      · exact hfl

/-- Claim C10: `updateTransactionsBillingData` mutates only transactions that
already carry a populated `billingData.stop` record, setting
`stop.invoiceStatus`, `stop.invoiceNumber` and `lastUpdate` to mirror the
invoice; a referenced transaction without `billingData.stop` is left
completely unchanged (silently skipped), an unreferenced transaction is
never touched, and a per-session storage failure does not affect the
updates applied for the invoice's other sessions. -/
theorem updateTransactionsBillingData_frame (now : Int) (fails : Nat → Bool)
    (inv : BillingInvoice) (st : StoreState)
    (sessions : List BillingSession) (hsess : inv.sessions = some sessions)
    (hndT : (st.transactions.map fun t => t.id).Nodup)
    (hndS : (sessions.map fun s => s.transactionID).Nodup) :
    ∃ st2, updateTransactionsBillingData now fails inv st = .ok st2 ∧
      (∀ tx ∈ st.transactions,
        (tx.billingData.bind fun bd => bd.stop) = none →
        tx ∈ st2.transactions) ∧
      (∀ tx ∈ st.transactions,
        (∀ s ∈ sessions, s.transactionID ≠ tx.id) →
        tx ∈ st2.transactions) ∧
      (∀ s ∈ sessions, ∀ tx ∈ st.transactions, tx.id = s.transactionID →
        fails tx.id = false →
        ∀ bd stop0, tx.billingData = some bd → bd.stop = some stop0 →
        { tx with billingData := some { bd with lastUpdate := now, stop := some { stop0 with invoiceStatus := some inv.status, invoiceNumber := some inv.number } } } ∈
          st2.transactions) := by
  refine ⟨sessions.foldl (updateTxBillingOne now fails inv) st,
    by simp [updateTransactionsBillingData, hsess], ?_, ?_, ?_⟩
  · intro tx hmem hstopless
    exact updateFold_preserve now fails inv sessions st tx hmem hndT
      (fun s _ _ => Or.inr hstopless)
  · intro tx hmem hnoref
    exact updateFold_preserve now fails inv sessions st tx hmem hndT
      (fun s hs heq => absurd heq (hnoref s hs))
  · intro s hs tx hmem hid hfl bd stop0 hbd hstp
    exact updateFold_update now fails inv sessions st tx bd stop0 hmem hndT
      hndS hbd hstp s hs hid.symm hfl

/-- A transaction carrying a populated `billingData.stop`, for the C10
witness. -/
def c10Tx1 : Transaction :=
  { id := 1, userID := some "U1", user := none, timestampMs := 0,
    lastConsumptionTimestampMs := 0, stop := none,
    billingData := some { withBillingActive := true, lastUpdate := 0, stop := some { status := .BILLED, invoiceID := some "in_1", invoiceNumber := none, invoiceStatus := some .DRAFT } } }

/-- A transaction with no billing data, for the C10 witness. -/
def c10Tx2 : Transaction :=
  { id := 2, userID := some "U2", user := none, timestampMs := 0,
    lastConsumptionTimestampMs := 0, stop := none, billingData := none }

/-- The C10 witness invoice, referencing both transactions. -/
def c10Invoice : BillingInvoice :=
  { id := 50, status := .PAID, createdOnDay := 0, liveMode := true,
    amount := 900, currency := "eur", number := "IN-50",
    payInvoiceUrl := "", userLocale := "en",
    sessions := some [{ transactionID := 1 }, { transactionID := 2 }] }

/-- The C10 witness store. -/
def c10Store : StoreState :=
  { transactions := [c10Tx1, c10Tx2], invoices := [c10Invoice] }

/-- Claim C10 witness: in the concrete run, the transaction with a populated
`billingData.stop` ends up mirroring the invoice (status PAID, number
"IN-50", refreshed `lastUpdate`), while the referenced transaction without
`billingData.stop` remains in the store completely unchanged. -/
theorem updateTransactionsBillingData_frame_witness :
    ∃ st2, updateTransactionsBillingData 5 (fun _ => false) c10Invoice
        c10Store = .ok st2 ∧
      { c10Tx1 with billingData := some { withBillingActive := true, lastUpdate := 5, stop := some { status := .BILLED, invoiceID := some "in_1", invoiceNumber := some "IN-50", invoiceStatus := some .PAID } } } ∈
        st2.transactions ∧
      c10Tx2 ∈ st2.transactions := by
  obtain ⟨st2, h1, h2, h3, h4⟩ :=
    updateTransactionsBillingData_frame 5 (fun _ => false) c10Invoice
      c10Store [{ transactionID := 1 }, { transactionID := 2 }] rfl
      (by decide) (by decide)
  refine ⟨st2, h1, ?_, ?_⟩
  · exact h4 { transactionID := 1 } (by decide) c10Tx1 (by decide) rfl rfl
      _ _ rfl rfl
  · exact h2 c10Tx2 (by decide) rfl

end EvBilling
